import Mathlib

set_option maxRecDepth 100000
set_option maxHeartbeats 2000000

/-!
Verification of the textbelt-py client's webhook-authentication core and
error-normalization layer, as a shallow embedding of
`src/textbelt_py/client.py`, `decorators.py`, `exceptions.py` and
`models.py`.

Modelling conventions:
* machine words are `Nat` reduced `% 2 ^ 32` where the Python code relies on
  32-bit arithmetic (inside SHA-256);
* Python exceptions become an explicit error type threaded through `Except`;
* `int(time.time())` becomes an explicit `now : Int` parameter;
* behaviour of the Python standard library that the code calls
  (`hashlib.sha256`, `hmac`, `json.loads`, `int(...)`) is embedded
  executably, following the documented CPython semantics.
-/

namespace Textbelt

/-! ### Bytes and UTF-8 encoding (`str.encode("utf-8")`) -/

/-- UTF-8 encoding of one Unicode code point, as a list of byte values. -/
def utf8Char (n : Nat) : List Nat :=
  if n < 0x80 then [n]
  else if n < 0x800 then
    [0xc0 + n / 0x40, 0x80 + n % 0x40]
  else if n < 0x10000 then
    [0xe0 + n / 0x1000, 0x80 + (n / 0x40) % 0x40, 0x80 + n % 0x40]
  else
    [0xf0 + n / 0x40000, 0x80 + (n / 0x1000) % 0x40,
     0x80 + (n / 0x40) % 0x40, 0x80 + n % 0x40]

/-- Python `s.encode("utf-8")`: the byte list of a string. -/
def utf8Encode (s : String) : List Nat :=
  s.data.flatMap (fun c => utf8Char c.toNat)

/-! ### SHA-256 (`hashlib.sha256`), over byte lists -/

/-- Truncate to a 32-bit word. -/
def w32 (n : Nat) : Nat := n % 4294967296

/-- 32-bit right rotation. -/
def rotr (n x : Nat) : Nat :=
  w32 ((x >>> n) ||| (x <<< (32 - n)))

/-- The 64 SHA-256 round constants of FIPS 180-4, in decimal. -/
def shaK : List Nat :=
  [1116352408, 1899447441, 3049323471, 3921009573, 961987163,
   1508970993, 2453635748, 2870763221, 3624381080, 310598401,
   607225278, 1426881987, 1925078388, 2162078206, 2614888103,
   3248222580, 3835390401, 4022224774, 264347078, 604807628,
   770255983, 1249150122, 1555081692, 1996064986, 2554220882,
   2821834349, 2952996808, 3210313671, 3336571891, 3584528711,
   113926993, 338241895, 666307205, 773529912, 1294757372,
   1396182291, 1695183700, 1986661051, 2177026350, 2456956037,
   2730485921, 2820302411, 3259730800, 3345764771, 3516065817,
   3600352804, 4094571909, 275423344, 430227734, 506948616,
   659060556, 883997877, 958139571, 1322822218, 1537002063,
   1747873779, 1955562222, 2024104815, 2227730452, 2361852424,
   2428436474, 2756734187, 3204031479, 3329325298]

/-- The running hash state: eight 32-bit words. -/
structure ShaState where
  a : Nat
  b : Nat
  c : Nat
  d : Nat
  e : Nat
  f : Nat
  g : Nat
  h : Nat
deriving DecidableEq

/-- The SHA-256 initial hash value of FIPS 180-4, in decimal. -/
def shaInit : ShaState :=
  ⟨1779033703, 3144134277, 1013904242, 2773480762,
   1359893119, 2600822924, 528734635, 1541459225⟩

/-- Group a byte list into big-endian 32-bit words (4 bytes per word). -/
def bytesToWords : List Nat → List Nat
  | b0 :: b1 :: b2 :: b3 :: rest =>
      (b0 * 0x1000000 + b1 * 0x10000 + b2 * 0x100 + b3) :: bytesToWords rest
  | _ => []

/-- Extend the 16 block words to the 64-entry message schedule.  The
accumulator keeps the schedule in reverse so the four taps are list heads;
`k` counts the remaining extension steps. -/
def extendSchedule : Nat → List Nat → List Nat
  | 0, acc => acc.reverse
  | k + 1, acc =>
      let t2 := acc.getD 1 0
      let t7 := acc.getD 6 0
      let t15 := acc.getD 14 0
      let t16 := acc.getD 15 0
      let s0 := (rotr 7 t15) ^^^ (rotr 18 t15) ^^^ (t15 >>> 3)
      let s1 := (rotr 17 t2) ^^^ (rotr 19 t2) ^^^ (t2 >>> 10)
      extendSchedule k (w32 (t16 + s0 + t7 + s1) :: acc)

/-- One SHA-256 compression round, consuming one schedule word paired with
its round constant. -/
def shaRound (st : ShaState) (kw : Nat × Nat) : ShaState :=
  let s1 := (rotr 6 st.e) ^^^ (rotr 11 st.e) ^^^ (rotr 25 st.e)
  let ch := (st.e &&& st.f) ^^^ ((0xffffffff ^^^ st.e) &&& st.g)
  let temp1 := w32 (st.h + s1 + ch + kw.1 + kw.2)
  let s0 := (rotr 2 st.a) ^^^ (rotr 13 st.a) ^^^ (rotr 22 st.a)
  let maj := (st.a &&& st.b) ^^^ (st.a &&& st.c) ^^^ (st.b &&& st.c)
  let temp2 := w32 (s0 + maj)
  ⟨w32 (temp1 + temp2), st.a, st.b, st.c, w32 (st.d + temp1), st.e, st.f, st.g⟩

/-- Compress one 64-byte block into the running state. -/
def shaBlock (st : ShaState) (block : List Nat) : ShaState :=
  let ws := extendSchedule 48 (bytesToWords block).reverse
  let r := (shaK.zip ws).foldl shaRound st
  ⟨w32 (st.a + r.a), w32 (st.b + r.b), w32 (st.c + r.c), w32 (st.d + r.d),
   w32 (st.e + r.e), w32 (st.f + r.f), w32 (st.g + r.g), w32 (st.h + r.h)⟩

/-- Split the padded message into 64-byte blocks and fold the compression
function over them; `fuel` bounds the recursion by the byte count. -/
def shaBlocks : Nat → ShaState → List Nat → ShaState
  | _, st, [] => st
  | 0, st, _ => st
  | fuel + 1, st, bytes =>
      shaBlocks fuel (shaBlock st (bytes.take 64)) (bytes.drop 64)

/-- Big-endian bytes of a number, `k` bytes wide. -/
def beBytes : Nat → Nat → List Nat
  | 0, _ => []
  | k + 1, n => (n >>> (8 * k)) % 256 :: beBytes k n

/-- SHA-256 message padding: `0x80`, zeros to 56 mod 64, then the 64-bit
big-endian bit length. -/
def shaPad (msg : List Nat) : List Nat :=
  let len := msg.length
  let zeros := (119 - len % 64) % 64
  msg ++ 0x80 :: List.replicate zeros 0 ++ beBytes 8 (8 * len)

/-- The 32 digest bytes of the final state. -/
def shaDigestBytes (st : ShaState) : List Nat :=
  beBytes 4 st.a ++ beBytes 4 st.b ++ beBytes 4 st.c ++ beBytes 4 st.d ++
  beBytes 4 st.e ++ beBytes 4 st.f ++ beBytes 4 st.g ++ beBytes 4 st.h

/-- SHA-256 of a byte list, as 32 digest bytes. -/
def sha256 (msg : List Nat) : List Nat :=
  let padded := shaPad msg
  shaDigestBytes (shaBlocks (padded.length + 1) shaInit padded)

/-! ### Hex encoding (`.hexdigest()`) -/

/-- The lowercase hex digits. -/
def hexDigits : List Char :=
  "0123456789abcdef".data

/-- The hex digit of `n % 16`. -/
def hexDigit (n : Nat) : Char := hexDigits.getD (n % 16) '0'

/-- Lowercase hex string of a byte list, two digits per byte. -/
def toHexStr (bs : List Nat) : String :=
  String.mk (bs.flatMap (fun b => [hexDigit (b / 16), hexDigit b]))

/-! ### HMAC-SHA256 (`hmac.new(key, msg, hashlib.sha256)`) -/

/-- HMAC-SHA256 over byte lists (block size 64), as 32 digest bytes. -/
def hmacSha256 (key msg : List Nat) : List Nat :=
  let k0 := if key.length > 64 then sha256 key else key
  let k1 := k0 ++ List.replicate (64 - k0.length) 0
  let ipad := k1.map (fun b => b ^^^ 0x36)
  let opad := k1.map (fun b => b ^^^ 0x5c)
  sha256 (opad ++ sha256 (ipad ++ msg))

/-- The hex digest computed in `verify_webhook`:
`hmac.new(key.encode("utf-8"), msg.encode("utf-8"), hashlib.sha256).hexdigest()`. -/
def hmacSha256Hex (key msg : String) : String :=
  toHexStr (hmacSha256 (utf8Encode key) (utf8Encode msg))

/-! ### Python `int(str)` -/

/-- ASCII whitespace stripped by Python `int(...)` (the model restricts the
stripped set, and the digits below, to ASCII). -/
def isPyWs (c : Char) : Bool :=
  c.toNat = 32 || (9 ≤ c.toNat && c.toNat ≤ 13)

/-- Decimal digit value of an ASCII character. -/
def digitVal (c : Char) : Option Nat :=
  if 48 ≤ c.toNat && c.toNat ≤ 57 then some (c.toNat - 48) else none

/-- Digits of an integer literal, allowing the single underscores Python
permits between digits.  `sawDigit` records whether the previous character
was a digit; the literal must start and end with one. -/
def pyDigitsGo : List Char → Nat → Bool → Option Nat
  | [], acc, true => some acc
  | [], _, false => none
  | c :: rest, acc, sawDigit =>
      match digitVal c with
      | some d => pyDigitsGo rest (10 * acc + d) true
      | none =>
          if c = '_' && sawDigit then pyDigitsGo rest acc false else none

/-- Python `int(s)`: strip whitespace, optional sign, decimal digits with
optional single underscores.  `none` models the `ValueError` raise. -/
def pyIntParse (s : String) : Option Int :=
  let cs := ((s.data.dropWhile isPyWs).reverse.dropWhile isPyWs).reverse
  match cs with
  | '+' :: rest => (pyDigitsGo rest 0 false).map Int.ofNat
  | '-' :: rest => (pyDigitsGo rest 0 false).map (fun n => -(n : Int))
  | rest => (pyDigitsGo rest 0 false).map Int.ofNat

/-! ### JSON values and `json.loads`

The parser follows Python's strict `json.loads` on the fragment the webhook
bodies use: objects, arrays, strings with the standard escapes, integer
numbers (a trailing fraction or exponent makes the model fail where CPython
would produce a float — no claim depends on float bodies), `true`, `false`,
`null`, and rejection of trailing data. -/

inductive Json
  | null
  | bool (b : Bool)
  | num (n : Int)
  | str (s : String)
  | arr (elems : List Json)
  | obj (fields : List (String × Json))

/-- The `\x7b` character. -/
def lcurly : Char := Char.ofNat 123

/-- The `\x7d` character. -/
def rcurly : Char := Char.ofNat 125

/-- JSON insignificant whitespace. -/
def skipWs (cs : List Char) : List Char :=
  cs.dropWhile (fun c => c = ' ' || c = '\t' || c = '\n' || c = '\r')

/-- Consume an expected literal character sequence. -/
def stripLit : List Char → List Char → Option (List Char)
  | [], cs => some cs
  | p :: ps, c :: cs => if c = p then stripLit ps cs else none
  | _ :: _, [] => none

/-- Four hex digits of a `\u` escape. -/
def hexVal (c : Char) : Option Nat :=
  if 48 ≤ c.toNat && c.toNat ≤ 57 then some (c.toNat - 48)
  else if 97 ≤ c.toNat && c.toNat ≤ 102 then some (c.toNat - 87)
  else if 65 ≤ c.toNat && c.toNat ≤ 70 then some (c.toNat - 55)
  else none

/-- Body of a JSON string after the opening quote, up to the closing
quote.  Lone surrogate escapes are mapped through `Char.ofNat`'s fallback
rather than CPython's surrogate handling; no claim exercises them. -/
def parseStrBody : Nat → List Char → Option (List Char × List Char)
  | 0, _ => none
  | _, [] => none
  | fuel + 1, c :: rest =>
      if c = '"' then some ([], rest)
      else if c = '\\' then
        match rest with
        | [] => none
        | e :: r2 =>
            if e = '"' || e = '\\' || e = '/' then
              (parseStrBody fuel r2).map (fun p => (e :: p.1, p.2))
            else if e = 'n' then
              (parseStrBody fuel r2).map (fun p => ('\n' :: p.1, p.2))
            else if e = 't' then
              (parseStrBody fuel r2).map (fun p => ('\t' :: p.1, p.2))
            else if e = 'r' then
              (parseStrBody fuel r2).map (fun p => ('\r' :: p.1, p.2))
            else if e = 'b' then
              (parseStrBody fuel r2).map (fun p => (Char.ofNat 8 :: p.1, p.2))
            else if e = 'f' then
              (parseStrBody fuel r2).map (fun p => (Char.ofNat 12 :: p.1, p.2))
            else if e = 'u' then
              match r2 with
              | h1 :: h2 :: h3 :: h4 :: r3 =>
                  match hexVal h1, hexVal h2, hexVal h3, hexVal h4 with
                  | some v1, some v2, some v3, some v4 =>
                      (parseStrBody fuel r3).map (fun p =>
                        (Char.ofNat (((v1 * 16 + v2) * 16 + v3) * 16 + v4) :: p.1, p.2))
                  | _, _, _, _ => none
              | _ => none
            else none
      else if c.toNat < 32 then none
      else (parseStrBody fuel rest).map (fun p => (c :: p.1, p.2))

/-- Leading decimal digits and their value. -/
def takeDigits : List Char → Nat → Nat × List Char
  | [], acc => (acc, [])
  | c :: rest, acc =>
      match digitVal c with
      | some d => takeDigits rest (10 * acc + d)
      | none => (acc, c :: rest)

/-- A JSON integer literal: optional minus, `0` or a nonzero-led digit run;
a following `.`, `e` or `E` (a float) falls outside the model. -/
def parseJNum (cs : List Char) : Option (Int × List Char) :=
  let (neg, cs1) :=
    match cs with
    | '-' :: rest => (true, rest)
    | rest => (false, rest)
  match cs1 with
  | [] => none
  | c :: rest =>
      match digitVal c with
      | none => none
      | some d =>
          if d = 0 then
            match rest with
            | r :: _ =>
                if (digitVal r).isSome || r = '.' || r = 'e' || r = 'E' then none
                else some (0, rest)
            | [] => some (0, rest)
          else
            let (v, r2) := takeDigits rest d
            match r2 with
            | r :: _ => if r = '.' || r = 'e' || r = 'E' then none
                        else some (if neg then -(v : Int) else (v : Int), r2)
            | [] => some (if neg then -(v : Int) else (v : Int), r2)

mutual

/-- A JSON value, recursion bounded by `fuel`. -/
def parseJVal : Nat → List Char → Option (Json × List Char)
  | 0, _ => none
  | fuel + 1, cs =>
      match skipWs cs with
      | [] => none
      | c :: rest =>
          if c = '"' then
            (parseStrBody (rest.length + 1) rest).map
              (fun p => (Json.str (String.mk p.1), p.2))
          else if c = '[' then
            match skipWs rest with
            | ']' :: r2 => some (Json.arr [], r2)
            | r2 => (parseJItems fuel r2).map (fun p => (Json.arr p.1, p.2))
          else if c = lcurly then
            match skipWs rest with
            | r :: r2 => if r = rcurly then some (Json.obj [], r2)
                         else (parseJFields fuel (r :: r2)).map
                           (fun p => (Json.obj p.1, p.2))
            | [] => none
          else if c = 't' then
            (stripLit ['r', 'u', 'e'] rest).map (fun r => (Json.bool true, r))
          else if c = 'f' then
            (stripLit ['a', 'l', 's', 'e'] rest).map (fun r => (Json.bool false, r))
          else if c = 'n' then
            (stripLit ['u', 'l', 'l'] rest).map (fun r => (Json.null, r))
          else
            (parseJNum (c :: rest)).map (fun p => (Json.num p.1, p.2))

/-- Comma-separated array items up to the closing bracket. -/
def parseJItems : Nat → List Char → Option (List Json × List Char)
  | 0, _ => none
  | fuel + 1, cs =>
      match parseJVal fuel cs with
      | none => none
      | some (v, r) =>
          match skipWs r with
          | ',' :: r2 =>
              (parseJItems fuel r2).map (fun p => (v :: p.1, p.2))
          | ']' :: r2 => some ([v], r2)
          | _ => none

/-- Comma-separated `"key": value` object members up to the closing brace. -/
def parseJFields : Nat → List Char → Option (List (String × Json) × List Char)
  | 0, _ => none
  | fuel + 1, cs =>
      match skipWs cs with
      | '"' :: r =>
          match parseStrBody (r.length + 1) r with
          | none => none
          | some (k, r1) =>
              match skipWs r1 with
              | ':' :: r2 =>
                  match parseJVal fuel r2 with
                  | none => none
                  | some (v, r3) =>
                      match skipWs r3 with
                      | ',' :: r4 =>
                          (parseJFields fuel r4).map
                            (fun p => ((String.mk k, v) :: p.1, p.2))
                      | r5 :: r4 =>
                          if r5 = rcurly then some ([(String.mk k, v)], r4)
                          else none
                      | [] => none
              | _ => none
      | _ => none

end

/-- `json.loads` minus the exception: `some` on a complete parse with only
trailing whitespace, `none` where CPython raises `json.JSONDecodeError`. -/
def jsonParse (s : String) : Option Json :=
  match parseJVal (s.data.length + 2) s.data with
  | some (v, rest) => if skipWs rest = [] then some v else none
  | none => none

/-! ### The exception model

Python exceptions are embedded by their type and `str(...)` text.  Type
names are modelled without CPython's `<class ...>` decoration.  The kinds
mirror exactly the classes named in `decorators.py` plus the ones the
client's own calls can raise: note that `json.loads` raises the *standard
library* `json.decoder.JSONDecodeError`, which is **not** an instance of
`requests.exceptions.JSONDecodeError` (the subclassing runs the other way),
so it is not caught by the decorator's `(HTTPError, JSONDecodeError)` arm. -/

inductive ExcKind
  | valueError
  | typeError
  | jsonDecodeError
  | validationError
  | httpError
  | requestsJsonDecodeError
  | genericExc
deriving DecidableEq

/-- The modelled runtime type name of an exception kind. -/
def ExcKind.typeName : ExcKind → String
  | .valueError => "ValueError"
  | .typeError => "TypeError"
  | .jsonDecodeError => "json.decoder.JSONDecodeError"
  | .validationError => "pydantic_core._pydantic_core.ValidationError"
  | .httpError => "requests.exceptions.HTTPError"
  | .requestsJsonDecodeError => "requests.exceptions.JSONDecodeError"
  | .genericExc => "Exception"

/-- A raised (non-Textbelt) Python exception: its class and `str(...)`. -/
structure PyExc where
  kind : ExcKind
  text : String
deriving DecidableEq

/-- `TextbeltException` from `exceptions.py`: the sole error surface. -/
structure TextbeltException where
  message : String
  exception : Option PyExc
  ex_type : Option String
deriving DecidableEq

/-- `TextbeltException.__init__`: with a wrapped cause the stored message
gains the `(Type = ... | Message = ...)` suffix and the cause and its type
are retained. -/
def TextbeltException.init (message : String) (exc : Option PyExc) :
    TextbeltException :=
  match exc with
  | some e =>
      ⟨message ++ " (Type = " ++ e.kind.typeName ++ " | Message = " ++
         e.text ++ ")",
       some e, some e.kind.typeName⟩
  | none => ⟨message, none, none⟩

/-- An exception escaping a wrapped operation: either the library's own
`TextbeltException` or some other Python exception. -/
inductive Raised
  | tb (e : TextbeltException)
  | py (e : PyExc)
deriving DecidableEq

/-- The `except` cascade of `exception_handler_decorator` in
`decorators.py`: `TextbeltException` is re-raised as-is; `ValidationError`
wraps as "Pydantic error occurred"; `HTTPError` and
`requests.exceptions.JSONDecodeError` wrap as "Requests error occurred";
everything else wraps as "Unexpected error occurred". -/
def classifyRaised : Raised → TextbeltException
  | .tb e => e
  | .py e =>
      match e.kind with
      | .validationError => .init "Pydantic error occurred" (some e)
      | .httpError => .init "Requests error occurred" (some e)
      | .requestsJsonDecodeError => .init "Requests error occurred" (some e)
      | _ => .init "Unexpected error occurred" (some e)

/-- `exception_handler_decorator` as a transformer of fallible results. -/
def exception_handler_decorator (r : Except Raised α) :
    Except TextbeltException α :=
  r.mapError classifyRaised

/-! ### `WebhookPayload` and pydantic validation (`models.py`) -/

/-- `WebhookPayload` from `models.py`: `textId`, `fromNumber` and `text`
are required strings; `data` is an optional string of at most 100
characters. -/
structure WebhookPayload where
  text_id : String
  from_number : String
  text : String
  data : Option String
deriving DecidableEq

/-- Lookup in a parsed JSON object; a duplicated key resolves to its last
occurrence, as in a Python dict built by `json.loads`. -/
def objLookupLast (fields : List (String × Json)) (k : String) : Option Json :=
  ((fields.filter (fun p => p.1 = k)).getLast?).map (fun p => p.2)

/-- A required pydantic `str` field: present and a string (pydantic v2
performs no int/bool-to-str coercion). -/
def checkStrField : Option Json → Option String
  | some (.str s) => some s
  | _ => none

/-- The `data` field: absent or JSON null give the `None` default; a
string must satisfy `max_length=100` (`len` counts code points). -/
def checkDataField : Option Json → Option (Option String)
  | none => some none
  | some .null => some none
  | some (.str s) => if s.data.length ≤ 100 then some (some s) else none
  | some _ => none

/-- The `str(...)` text of a pydantic `ValidationError` for this model
(abbreviated to its leading count line). -/
def validationExc (n : Nat) : PyExc :=
  ⟨.validationError,
   if n = 1 then "1 validation error for WebhookPayload"
   else toString n ++ " validation errors for WebhookPayload"⟩

/-- `WebhookPayload.model_validate`: the input must be a dict; extra keys
are ignored; each failing field contributes one error. -/
def webhookValidate (j : Json) : Except PyExc WebhookPayload :=
  match j with
  | .obj fields =>
      match checkStrField (objLookupLast fields "textId"),
            checkStrField (objLookupLast fields "fromNumber"),
            checkStrField (objLookupLast fields "text"),
            checkDataField (objLookupLast fields "data") with
      | some a, some b, some c, some d => .ok ⟨a, b, c, d⟩
      | r1, r2, r3, r4 =>
          .error (validationExc
            ((if r1.isNone then 1 else 0) + (if r2.isNone then 1 else 0) +
             (if r3.isNone then 1 else 0) + (if r4.isNone then 1 else 0)))
  | _ => .error (validationExc 1)

/-! ### `hmac.compare_digest` and `verify_webhook` (`client.py`) -/

/-- Whether every character is ASCII. -/
def isAsciiStr (s : String) : Bool :=
  s.data.all (fun c => c.toNat < 128)

/-- `str(TypeError)` raised by `compare_digest` on non-ASCII input. -/
def compareDigestMsg : String :=
  "comparing strings with non-ASCII characters is not supported"

/-- `hmac.compare_digest` on two `str` arguments: CPython documents str
input as ASCII-only and raises `TypeError` otherwise; functionally (the
timing profile is outside this embedding) it decides equality. -/
def compare_digest (a b : String) : Except PyExc Bool :=
  if isAsciiStr a && isAsciiStr b then .ok (a == b)
  else .error ⟨.typeError, compareDigestMsg⟩

/-- The `ValueError` from `int(request_timestamp)` on a non-numeral
(CPython quotes the literal; the quotes are omitted in the model). -/
def intValueError (s : String) : PyExc :=
  ⟨.valueError, "invalid literal for int() with base 10: " ++ s⟩

/-- `json.loads`, with its failure as the standard-library
`json.decoder.JSONDecodeError` (text abbreviated from CPython's, which
also carries line/column). -/
def jsonLoads (s : String) : Except PyExc Json :=
  match jsonParse s with
  | some v => .ok v
  | none => .error ⟨.jsonDecodeError, "Expecting value"⟩

/-- The tail of `verify_webhook` past the freshness check, from
`client.py` lines 131-143: recompute the hex HMAC over
`request_timestamp + request_payload`, compare with `compare_digest`,
return `(False, None)` on mismatch, else `json.loads` the body and
validate it as `WebhookPayload`. -/
def signatureCheckAndParse (api_key ts sig body : String) :
    Except PyExc (Bool × Option WebhookPayload) :=
  let signature := hmacSha256Hex api_key (ts ++ body)
  match compare_digest sig signature with
  | .error e => .error e
  | .ok valid =>
      if valid then
        match jsonLoads body with
        | .error e => .error e
        | .ok payload_json =>
            match webhookValidate payload_json with
            | .error e => .error e
            | .ok p => .ok (true, some p)
      else .ok (false, none)

/-- The body of `TextbeltClient.verify_webhook` before decoration:
`int(request_timestamp)`, the 15-minute (900-second,
`datetime.timedelta(minutes=15).seconds`) strict staleness test against
`now = int(time.time())`, then the signature phase. -/
def verifyInner (now : Int) (api_key ts sig body : String) :
    Except PyExc (Bool × Option WebhookPayload) :=
  match pyIntParse ts with
  | none => .error (intValueError ts)
  | some timestamp =>
      if now - timestamp > 900 then .ok (false, none)
      else signatureCheckAndParse api_key ts sig body

/-- `TextbeltClient.verify_webhook`: the verifier body wrapped by
`exception_handler_decorator`, with `int(time.time())` passed as `now`. -/
def verify_webhook (now : Int) (api_key ts sig body : String) :
    Except TextbeltException (Bool × Option WebhookPayload) :=
  exception_handler_decorator
    ((verifyInner now api_key ts sig body).mapError Raised.py)

/-- The decorated result of the post-freshness phase alone; a fresh
timestamp makes `verify_webhook` agree with it definitionally. -/
def pastFreshnessResult (api_key ts sig body : String) :
    Except TextbeltException (Bool × Option WebhookPayload) :=
  exception_handler_decorator
    ((signatureCheckAndParse api_key ts sig body).mapError Raised.py)

/-! ### Outbound wire payloads (`send_sms`, `send_otp`)

`model_dump(exclude_unset=True, by_alias=True)` emits, in field-definition
order, exactly the fields the caller passed to the constructor (pydantic's
`model_fields_set`), under their `serialization_alias`; the client then
adds `payload["key"]`.  The `..._set` flags embed `model_fields_set` for
the optional fields (required fields are always set). -/

/-- A value in a form-encoded wire payload. -/
inductive FormVal
  | str (s : String)
  | int (i : Int)
  | null
deriving DecidableEq

/-- `SMSRequest` from `models.py`, with its construction-time field set. -/
structure SMSRequest where
  phone : String
  message : String
  sender : Option String
  reply_webhook_url : Option String
  webhook_data : Option String
  sender_set : Bool
  reply_webhook_url_set : Bool
  webhook_data_set : Bool

/-- An optional field's dumped value. -/
def optStrVal : Option String → FormVal
  | some s => .str s
  | none => .null

/-- `sms_request.model_dump(exclude_unset=True, by_alias=True)`. -/
def SMSRequest.dumpUnsetAlias (r : SMSRequest) : List (String × FormVal) :=
  [("phone", .str r.phone), ("message", .str r.message)]
  ++ (if r.sender_set then [("sender", optStrVal r.sender)] else [])
  ++ (if r.reply_webhook_url_set then
        [("replyWebhookUrl", optStrVal r.reply_webhook_url)] else [])
  ++ (if r.webhook_data_set then
        [("webhookData", optStrVal r.webhook_data)] else [])

/-- The wire payload `send_sms` posts: the dump plus `payload["key"]`. -/
def send_sms_payload (api_key : String) (r : SMSRequest) :
    List (String × FormVal) :=
  r.dumpUnsetAlias ++ [("key", .str api_key)]

/-- `OTPGenerateRequest` from `models.py`, with its field set. -/
structure OTPGenerateRequest where
  phone : String
  user_id : String
  message : Option String
  lifetime : Option Int
  length : Option Int
  message_set : Bool
  lifetime_set : Bool
  length_set : Bool

/-- An optional int field's dumped value. -/
def optIntVal : Option Int → FormVal
  | some i => .int i
  | none => .null

/-- `otp_generate_request.model_dump(exclude_unset=True, by_alias=True)`;
`user_id` serializes under its alias `userid`. -/
def OTPGenerateRequest.dumpUnsetAlias (r : OTPGenerateRequest) :
    List (String × FormVal) :=
  [("phone", .str r.phone), ("userid", .str r.user_id)]
  ++ (if r.message_set then [("message", optStrVal r.message)] else [])
  ++ (if r.lifetime_set then [("lifetime", optIntVal r.lifetime)] else [])
  ++ (if r.length_set then [("length", optIntVal r.length)] else [])

/-- The wire payload `send_otp` posts: the dump plus `payload["key"]`. -/
def send_otp_payload (api_key : String) (r : OTPGenerateRequest) :
    List (String × FormVal) :=
  r.dumpUnsetAlias ++ [("key", .str api_key)]

/-! ### The spec's error taxonomy, for comparison with the code

The spec (section 7) names four categories.  The decorator's three wrap
messages realize three of them one-to-one — its `ValidationError` arm is
the spec's domain-validation/`Decode` wrap, its
`HTTPError`/`JSONDecodeError` arm the `Transport` wrap, its catch-all the
`Unexpected` wrap — and no code path realizes `Domain`.  The mapping below
states that correspondence from the spec's words so claims about
categories can be settled against the code's messages. -/

inductive SpecCategory
  | Domain
  | Decode
  | Transport
  | Unexpected
deriving DecidableEq

/-- Whether `pat` is an initial segment of `s`. -/
def beginsWith (s pat : String) : Bool :=
  pat.data.isPrefixOf s.data

/-- Spec-side reading of a normalized error's category from its wrap
message (see the section comment above). -/
def specCategoryOfMessage (m : String) : Option SpecCategory :=
  if beginsWith m "Pydantic error occurred" then some .Decode
  else if beginsWith m "Requests error occurred" then some .Transport
  else if beginsWith m "Unexpected error occurred" then some .Unexpected
  else none

/-- The spec-side category of a decorated operation's outcome. -/
def raisedCategory (r : Except TextbeltException α) : Option SpecCategory :=
  match r with
  | .error e => specCategoryOfMessage e.message
  | .ok _ => none

/-! ### Concrete scenario strings -/

/-- The number of character positions at which two strings differ. -/
def diffCount : List Char → List Char → Nat
  | [], [] => 0
  | [], r => r.length
  | l, [] => l.length
  | a :: as, b :: bs => (if a = b then 0 else 1) + diffCount as bs

/-- `diffCount` on strings. -/
def charDiffCount (a b : String) : Nat :=
  diffCount a.data b.data

/-- The spec's concrete scenario body, with the `conversationId` key the
spec claims. -/
def convBody : String :=
  "\x7b\"conversationId\":\"123456\",\"fromNumber\":\"+1555123456\",\"text\":\"Here is my reply\",\"data\":\"my custom data\"\x7d"

/-- The same scenario body with the `textId` key the code's
`WebhookPayload` requires. -/
def webhookBody : String :=
  "\x7b\"textId\":\"123456\",\"fromNumber\":\"+1555123456\",\"text\":\"Here is my reply\",\"data\":\"my custom data\"\x7d"

/-- A small webhook body for the signature-mismatch scenario. -/
def c3Body : String := "\x7b\"a\":\"b\"\x7d"

/-- `c3Body` with exactly one character changed. -/
def c3BodyMut : String := "\x7b\"a\":\"c\"\x7d"

deriving instance DecidableEq for Except

/-! ### Helper lemmas -/

theorem hexDigit_ascii (n : Nat) : (hexDigit n).toNat < 128 := by
  have h : n % 16 < 16 := Nat.mod_lt _ (by norm_num)
  unfold hexDigit
  set m := n % 16 with hm
  interval_cases m <;> decide

theorem toHexStr_data (bs : List Nat) :
    (toHexStr bs).data = bs.flatMap (fun b => [hexDigit (b / 16), hexDigit b]) :=
  rfl

theorem toHexStr_ascii (bs : List Nat) : isAsciiStr (toHexStr bs) = true := by
  unfold isAsciiStr
  rw [toHexStr_data, List.all_eq_true]
  intro c hc
  rw [List.mem_flatMap] at hc
  obtain ⟨b, _, hcb⟩ := hc
  simp only [List.mem_cons, List.not_mem_nil, or_false] at hcb
  rcases hcb with h | h <;>
    · subst h
      simpa using hexDigit_ascii _

/-- Every hex digest `verify_webhook` computes is ASCII. -/
theorem hmacHex_ascii (k m : String) : isAsciiStr (hmacSha256Hex k m) = true :=
  toHexStr_ascii _

/-- `compare_digest` on an ASCII string and itself succeeds with `true`. -/
theorem compare_digest_self (a : String) (h : isAsciiStr a = true) :
    compare_digest a a = .ok true := by
  simp [compare_digest, h]

/-- The only failure `jsonLoads` produces is the standard-library
`JSONDecodeError`. -/
theorem jsonLoads_error_eq (body : String) (pe : PyExc)
    (h : jsonLoads body = .error pe) :
    pe = ⟨.jsonDecodeError, "Expecting value"⟩ := by
  unfold jsonLoads at h
  cases hj : jsonParse body with
  | some v => rw [hj] at h; exact absurd h (by simp)
  | none =>
      rw [hj] at h
      exact (Except.error.inj h).symm

/-- With the signature supplied being exactly the computed digest, the
comparison succeeds and the post-freshness phase is the parse-and-validate
tail. -/
theorem signatureCheckAndParse_self (key ts body : String) :
    signatureCheckAndParse key ts (hmacSha256Hex key (ts ++ body)) body
      = match jsonLoads body with
        | .error e => .error e
        | .ok payload_json =>
            match webhookValidate payload_json with
            | .error e => .error e
            | .ok p => .ok (true, some p) := by
  simp only [signatureCheckAndParse]
  rw [compare_digest_self _ (hmacHex_ascii key (ts ++ body))]
  rfl

/-- Every failure `webhookValidate` produces is a pydantic
`ValidationError`. -/
theorem webhookValidate_error_kind (j : Json) (pe : PyExc)
    (h : webhookValidate j = .error pe) :
    pe.kind = .validationError := by
  cases j with
  | obj fields =>
      simp only [webhookValidate] at h
      split at h
      · exact absurd h (by simp)
      · rw [← Except.error.inj h]; rfl
  | null => simp only [webhookValidate] at h; rw [← Except.error.inj h]; rfl
  | bool b => simp only [webhookValidate] at h; rw [← Except.error.inj h]; rfl
  | num n => simp only [webhookValidate] at h; rw [← Except.error.inj h]; rfl
  | str s => simp only [webhookValidate] at h; rw [← Except.error.inj h]; rfl
  | arr l => simp only [webhookValidate] at h; rw [← Except.error.inj h]; rfl

/-! ### The claims -/

/-- Claim C2: for every timestamp string parsing to integer `t` with
`now - t > 900`, `verify_webhook` returns `(false, none)` — for every
supplied signature, so the signature comparison is never consulted and
nothing is raised; and at exactly `now - t = 900` the webhook is not
rejected as stale: the result is exactly that of the post-freshness
signature phase (the staleness check is strict greater-than). -/
theorem claim_C2 (now t : Int) (key ts sig body : String)
    (hp : pyIntParse ts = some t) :
    (now - t > 900 → verify_webhook now key ts sig body = .ok (false, none))
    ∧ (now - t = 900 →
        verify_webhook now key ts sig body = pastFreshnessResult key ts sig body) := by
  constructor
  · intro h900
    simp only [verify_webhook, exception_handler_decorator, verifyInner, hp]
    rw [if_pos h900]
    rfl
  · intro h900
    simp only [verify_webhook, exception_handler_decorator, verifyInner,
      pastFreshnessResult, hp]
    rw [if_neg (by omega)]

/-- Claim C2, witnessed: a 1900-second-old webhook is rejected with
`(false, none)`, and an exactly-900-second-old one proceeds to the
signature phase. -/
theorem claim_C2_witness :
    verify_webhook 2000 "k" "100" "sig" "\x7b\x7d" = .ok (false, none)
    ∧ verify_webhook 1000 "k" "100" "sig" "\x7b\x7d"
        = pastFreshnessResult "k" "100" "sig" "\x7b\x7d" :=
  ⟨(claim_C2 2000 100 "k" "100" "sig" "\x7b\x7d" (by decide)).1 (by decide),
   (claim_C2 1000 100 "k" "100" "sig" "\x7b\x7d" (by decide)).2 (by decide)⟩

/-- Claim C9: a timestamp at or beyond the current time — arbitrarily far
in the future — always passes the freshness check: `verify_webhook`
coincides with the post-freshness signature phase, so only the
past-direction age is bounded. -/
theorem claim_C9 (now t : Int) (key ts sig body : String)
    (hp : pyIntParse ts = some t) (hfut : now ≤ t) :
    verify_webhook now key ts sig body = pastFreshnessResult key ts sig body := by
  simp only [verify_webhook, exception_handler_decorator, verifyInner,
    pastFreshnessResult, hp]
  rw [if_neg (by omega)]

/-- Claim C9, witnessed on a timestamp astronomically far in the future. -/
theorem claim_C9_witness :
    verify_webhook 1700000000 "k" "99999999999999999999" "sig" "x"
      = pastFreshnessResult "k" "99999999999999999999" "sig" "x" :=
  claim_C9 1700000000 99999999999999999999 "k" "99999999999999999999" "sig" "x"
    (by decide) (by decide)

/-- Claim C7: an error that is already a `TextbeltException` passes
through the decorator unchanged — the identical exception object, hence
identical category, message and wrapped cause, with no double wrap. -/
theorem claim_C7 {α : Type} (e : TextbeltException) :
    exception_handler_decorator (Except.error (Raised.tb e) : Except Raised α)
        = Except.error e
    ∧ classifyRaised (Raised.tb e) = e :=
  ⟨rfl, rfl⟩

/-- Claim C5, amended: a timestamp string that `int(...)` rejects makes
`verify_webhook` raise the normalized error of category Unexpected (wrap
message "Unexpected error occurred", the decorator's catch-all arm — not
a Domain-category error, which no code path produces), rather than
returning `(false, none)`. -/
theorem claim_C5_amended (now : Int) (key ts sig body : String)
    (hp : pyIntParse ts = none) :
    verify_webhook now key ts sig body
      = .error (.init "Unexpected error occurred" (some (intValueError ts))) := by
  simp only [verify_webhook, exception_handler_decorator, verifyInner, hp]
  rfl

/-- Claim C5, witnessed on the unparsable timestamp "xyz". -/
theorem claim_C5_witness :
    verify_webhook 1700000000 "test_api_key" "xyz" "sig" "\x7b\x7d"
      = .error (.init "Unexpected error occurred" (some (intValueError "xyz"))) :=
  claim_C5_amended 1700000000 "test_api_key" "xyz" "sig" "\x7b\x7d" (by decide)

/-- Claim C5, counterexample to the claim as stated: on the unparsable
timestamp "abc" the raised normalized error carries the category
`Unexpected` under the spec's taxonomy, not `Domain`. -/
theorem claim_C5_counterexample :
    raisedCategory (verify_webhook 1700000000 "test_api_key" "abc" "sig" "\x7b\x7d")
        = some SpecCategory.Unexpected
    ∧ raisedCategory (verify_webhook 1700000000 "test_api_key" "abc" "sig" "\x7b\x7d")
        ≠ some SpecCategory.Domain := by
  exact ⟨by decide, by decide⟩

/-- Claim C1, counterexample to the claim as stated: in the spec's
concrete scenario — `now = 1700000000`, timestamp the string of
`now - 300`, body carrying the `conversationId` key, signature the
HMAC-SHA256 hex digest of timestamp-plus-body under the credential —
`verify_webhook` does not return `(true, payload)`: the authenticated
body fails `WebhookPayload` validation (the model requires `textId`), so
the call raises instead of succeeding. -/
theorem claim_C1_counterexample :
    verify_webhook 1700000000 "test_api_key" "1699999700"
        (hmacSha256Hex "test_api_key" ("1699999700" ++ convBody)) convBody
      = .error (.init "Pydantic error occurred" (some (validationExc 1))) := by
  have hts : pyIntParse "1699999700" = some 1699999700 := by decide
  simp only [verify_webhook, exception_handler_decorator, verifyInner, hts]
  rw [if_neg (by decide)]
  rw [signatureCheckAndParse_self]
  decide

/-- Claim C1, amended: the same concrete scenario with the `textId` key
the code's `WebhookPayload` declares — and for every credential —
returns `(true, payload)` with `text_id = "123456"`,
`from_number = "+1555123456"`, `text = "Here is my reply"` and
`data = "my custom data"`. -/
theorem claim_C1_amended (cred : String) :
    verify_webhook 1700000000 cred "1699999700"
        (hmacSha256Hex cred ("1699999700" ++ webhookBody)) webhookBody
      = .ok (true, some ⟨"123456", "+1555123456", "Here is my reply",
                         some "my custom data"⟩) := by
  have hts : pyIntParse "1699999700" = some 1699999700 := by decide
  simp only [verify_webhook, exception_handler_decorator, verifyInner, hts]
  rw [if_neg (by decide)]
  rw [signatureCheckAndParse_self]
  decide

/-- Claim C6, counterexample to the claim as stated: the wrap of a
validation failure is labelled "Pydantic error occurred", not
"validation error occurred", and the wrap of a transport failure is
labelled "Requests error occurred", not "transport error occurred". -/
theorem claim_C6_counterexample :
    beginsWith (classifyRaised (.py ⟨.validationError, "boom"⟩)).message
        "Pydantic error occurred" = true
    ∧ beginsWith (classifyRaised (.py ⟨.validationError, "boom"⟩)).message
        "validation error occurred" = false
    ∧ beginsWith (classifyRaised (.py ⟨.httpError, "net down"⟩)).message
        "Requests error occurred" = true
    ∧ beginsWith (classifyRaised (.py ⟨.httpError, "net down"⟩)).message
        "transport error occurred" = false := by
  decide

/-- Claim C6, amended: a domain-validation failure (pydantic
`ValidationError`) wraps with message "Pydantic error occurred" (the
Decode-category wrap), a transport failure (`HTTPError` or
`requests.exceptions.JSONDecodeError`) with "Requests error occurred"
(the Transport-category wrap); in both the original cause is preserved
and the stored display text embeds the cause's runtime type name and
text as `<message> (Type = <cause type> | Message = <cause text>)`. -/
theorem claim_C6_amended :
    (∀ e : PyExc, e.kind = .validationError →
        classifyRaised (.py e) = .init "Pydantic error occurred" (some e)
        ∧ (classifyRaised (.py e)).message
            = "Pydantic error occurred (Type = " ++ e.kind.typeName
              ++ " | Message = " ++ e.text ++ ")"
        ∧ (classifyRaised (.py e)).exception = some e)
    ∧ (∀ e : PyExc, e.kind = .httpError ∨ e.kind = .requestsJsonDecodeError →
        classifyRaised (.py e) = .init "Requests error occurred" (some e)
        ∧ (classifyRaised (.py e)).message
            = "Requests error occurred (Type = " ++ e.kind.typeName
              ++ " | Message = " ++ e.text ++ ")"
        ∧ (classifyRaised (.py e)).exception = some e) := by
  constructor
  · rintro ⟨k, txt⟩ hk
    have hk2 : k = .validationError := hk
    subst hk2
    exact ⟨rfl, rfl, rfl⟩
  · rintro ⟨k, txt⟩ (hk | hk) <;>
      · have hk2 : k = _ := hk
        subst hk2
        exact ⟨rfl, rfl, rfl⟩

/-- Claim C6, witnessed on a concrete `ValidationError` and a concrete
`HTTPError`. -/
theorem claim_C6_witness :
    classifyRaised (.py ⟨.validationError, "boom"⟩)
      = TextbeltException.init "Pydantic error occurred"
          (some ⟨.validationError, "boom"⟩)
    ∧ classifyRaised (.py ⟨.httpError, "net down"⟩)
      = TextbeltException.init "Requests error occurred"
          (some ⟨.httpError, "net down"⟩) :=
  ⟨(claim_C6_amended.1 ⟨.validationError, "boom"⟩ rfl).1,
   (claim_C6_amended.2 ⟨.httpError, "net down"⟩ (Or.inl rfl)).1⟩

/-- Claim C3, counterexample to the claim as stated: a fresh timestamp
and a supplied signature that differs from the computed hex digest can
still raise — `hmac.compare_digest` rejects a non-ASCII `str` with
`TypeError`, which the decorator wraps — instead of returning
`(false, none)` "without raising". -/
theorem claim_C3_counterexample :
    "é" ≠ hmacSha256Hex "test_api_key" ("1699999700" ++ "\x7b\x7d")
    ∧ verify_webhook 1700000000 "test_api_key" "1699999700" "é" "\x7b\x7d"
        = .error (.init "Unexpected error occurred"
            (some ⟨.typeError, compareDigestMsg⟩)) := by
  constructor
  · intro h
    have h2 := hmacHex_ascii "test_api_key" ("1699999700" ++ "\x7b\x7d")
    rw [← h] at h2
    exact absurd h2 (by decide)
  · decide

/-- Claim C3, amended: for every fresh timestamp and every **ASCII**
supplied signature differing from the computed hex digest,
`verify_webhook` returns `(false, none)` without raising (a non-ASCII
signature instead raises the wrapped `TypeError` of the counterexample);
in particular the concrete one-character body mutation, keeping the
signature computed over the original body, yields `(false, none)`. -/
theorem claim_C3_amended :
    (∀ (now t : Int) (key ts sig body : String),
        pyIntParse ts = some t → now - t ≤ 900 → isAsciiStr sig = true →
        sig ≠ hmacSha256Hex key (ts ++ body) →
        verify_webhook now key ts sig body = .ok (false, none))
    ∧ charDiffCount c3Body c3BodyMut = 1
    ∧ verify_webhook 1700000000 "test_api_key" "1699999700"
        (hmacSha256Hex "test_api_key" ("1699999700" ++ c3Body)) c3BodyMut
      = .ok (false, none) := by
  refine ⟨?_, by decide, by decide⟩
  intro now t key ts sig body hp hfresh hascii hne
  simp only [verify_webhook, exception_handler_decorator, verifyInner, hp]
  rw [if_neg (by omega)]
  simp only [signatureCheckAndParse]
  have hc : compare_digest sig (hmacSha256Hex key (ts ++ body)) = .ok false := by
    unfold compare_digest
    rw [hascii, hmacHex_ascii, beq_eq_false_iff_ne.mpr hne]
    rfl
  rw [hc]
  rfl

/-- Claim C3, witnessed: a fresh timestamp with the ASCII signature "00",
which is not the computed digest, yields `(false, none)`. -/
theorem claim_C3_witness :
    verify_webhook 1700000000 "test_api_key" "1699999700" "00" "\x7b\x7d"
      = .ok (false, none) :=
  claim_C3_amended.1 1700000000 1699999700 "test_api_key" "1699999700" "00"
    "\x7b\x7d" (by decide) (by decide) (by decide) (by decide)

/-- Claim C4, counterexample to the claim as stated: a body that passes
the signature check but fails to **parse** as JSON raises the
`Unexpected`-category normalized error, not a `Decode`-category one —
`json.loads` raises the standard-library `JSONDecodeError`, which the
decorator's `requests.exceptions.JSONDecodeError` arm does not catch. -/
theorem claim_C4_counterexample :
    raisedCategory (verify_webhook 1700000000 "test_api_key" "1699999700"
        (hmacSha256Hex "test_api_key" ("1699999700" ++ "not json")) "not json")
      = some SpecCategory.Unexpected
    ∧ raisedCategory (verify_webhook 1700000000 "test_api_key" "1699999700"
        (hmacSha256Hex "test_api_key" ("1699999700" ++ "not json")) "not json")
      ≠ some SpecCategory.Decode := by
  exact ⟨by decide, by decide⟩

/-- Claim C4, amended: past both checks, a body whose JSON parses but
fails `WebhookPayload` validation raises the Decode-category wrap
("Pydantic error occurred") of the `ValidationError`, and a body whose
JSON fails to parse raises the Unexpected-category wrap of the
`JSONDecodeError`; neither outcome is `(false, none)`. -/
theorem claim_C4_amended :
    (∀ (now t : Int) (key ts body : String) (j : Json) (ve : PyExc),
        pyIntParse ts = some t → now - t ≤ 900 →
        jsonLoads body = .ok j → webhookValidate j = .error ve →
        verify_webhook now key ts (hmacSha256Hex key (ts ++ body)) body
          = .error (.init "Pydantic error occurred" (some ve)))
    ∧ (∀ (now t : Int) (key ts body : String) (pe : PyExc),
        pyIntParse ts = some t → now - t ≤ 900 →
        jsonLoads body = .error pe →
        verify_webhook now key ts (hmacSha256Hex key (ts ++ body)) body
          = .error (.init "Unexpected error occurred" (some pe))) := by
  constructor
  · intro now t key ts body j ve hp hfresh hj hv
    have hk := webhookValidate_error_kind j ve hv
    simp only [verify_webhook, exception_handler_decorator, verifyInner, hp]
    rw [if_neg (by omega)]
    rw [signatureCheckAndParse_self]
    simp only [hj, hv]
    obtain ⟨k, txt⟩ := ve
    have hk2 : k = .validationError := hk
    subst hk2
    rfl
  · intro now t key ts body pe hp hfresh hj
    have hpe := jsonLoads_error_eq body pe hj
    simp only [verify_webhook, exception_handler_decorator, verifyInner, hp]
    rw [if_neg (by omega)]
    rw [signatureCheckAndParse_self]
    simp only [hj]
    subst hpe
    rfl

/-- Claim C4, witnessed: with a correct signature, the body `{}` parses
but fails validation with three errors and raises the Pydantic wrap,
and the body "nope" fails to parse and raises the Unexpected wrap. -/
theorem claim_C4_witness :
    verify_webhook 1700000000 "test_api_key" "1699999700"
        (hmacSha256Hex "test_api_key" ("1699999700" ++ "\x7b\x7d")) "\x7b\x7d"
      = .error (.init "Pydantic error occurred" (some (validationExc 3)))
    ∧ verify_webhook 1700000000 "test_api_key" "1699999700"
        (hmacSha256Hex "test_api_key" ("1699999700" ++ "nope")) "nope"
      = .error (.init "Unexpected error occurred"
          (some ⟨.jsonDecodeError, "Expecting value"⟩)) :=
  ⟨claim_C4_amended.1 1700000000 1699999700 "test_api_key" "1699999700" "\x7b\x7d"
      (Json.obj []) (validationExc 3) (by decide) (by decide) rfl rfl,
   claim_C4_amended.2 1700000000 1699999700 "test_api_key" "1699999700" "nope"
      ⟨.jsonDecodeError, "Expecting value"⟩ (by decide) (by decide) rfl⟩


/-- Claim C10: the `send_sms` and `send_otp` wire payloads hold exactly
the caller-set fields under their serialization aliases — an optional
field appears iff the caller set it, the alias spellings replace the
snake_case names — plus a `key` field carrying the client api key. -/
theorem claim_C10 (key : String) (r : SMSRequest) (q : OTPGenerateRequest) :
    (("key", FormVal.str key) ∈ send_sms_payload key r
     ∧ ("phone", FormVal.str r.phone) ∈ send_sms_payload key r
     ∧ ("message", FormVal.str r.message) ∈ send_sms_payload key r
     ∧ (("sender" ∈ (send_sms_payload key r).map Prod.fst) ↔ r.sender_set = true)
     ∧ (("replyWebhookUrl" ∈ (send_sms_payload key r).map Prod.fst)
          ↔ r.reply_webhook_url_set = true)
     ∧ (("webhookData" ∈ (send_sms_payload key r).map Prod.fst)
          ↔ r.webhook_data_set = true)
     ∧ "reply_webhook_url" ∉ (send_sms_payload key r).map Prod.fst
     ∧ "webhook_data" ∉ (send_sms_payload key r).map Prod.fst)
    ∧ (("key", FormVal.str key) ∈ send_otp_payload key q
     ∧ ("phone", FormVal.str q.phone) ∈ send_otp_payload key q
     ∧ ("userid", FormVal.str q.user_id) ∈ send_otp_payload key q
     ∧ "user_id" ∉ (send_otp_payload key q).map Prod.fst
     ∧ (("message" ∈ (send_otp_payload key q).map Prod.fst) ↔ q.message_set = true)
     ∧ (("lifetime" ∈ (send_otp_payload key q).map Prod.fst) ↔ q.lifetime_set = true)
     ∧ (("length" ∈ (send_otp_payload key q).map Prod.fst) ↔ q.length_set = true)) := by
  constructor
  · obtain ⟨ph, ms, sn, rwu, wd, f1, f2, f3⟩ := r
    cases f1 <;> cases f2 <;> cases f3 <;>
      simp [send_sms_payload, SMSRequest.dumpUnsetAlias]
  · obtain ⟨ph, uid, ms, lt, ln, f1, f2, f3⟩ := q
    cases f1 <;> cases f2 <;> cases f3 <;>
      simp [send_otp_payload, OTPGenerateRequest.dumpUnsetAlias]

end Textbelt
